import Mathlib

/-!
Shallow embedding of the Credential Checkout Engine of the `agent-key`
repository: the envelope vault (`app/crypto/envelope.py`), policy
resolution and quota enforcement (`app/services/policy.py`), and the
checkout lifecycle (`app/services/checkout.py`), together with proofs of
the specification's claims about them.

Timestamps are modelled as integers (seconds); UUIDs as naturals.
-/

/-- The ideal-cipher model of the `cryptography` library's Fernet
authenticated symmetric scheme, which is external to the repository.
Modelled from the spec: a token records the key it was produced under and
the payload, and decryption succeeds exactly when the key matches, so a
token forged or produced under a different key never decrypts. Payloads
distinguish UTF-8 text, Fernet data keys, and arbitrary raw bytes. -/
inductive FernetBytes where
  | text (s : String) : FernetBytes
  | key (k : Nat) : FernetBytes
  | raw (n : Nat) : FernetBytes
deriving DecidableEq, Repr

/-- A Fernet token: ciphertext produced by `Fernet(key).encrypt(payload)`. -/
structure FernetToken where
  producedUnder : Nat
  payload : FernetBytes
deriving DecidableEq, Repr

/-- `Fernet(k).encrypt(m)` in the ideal-cipher model. -/
def fernetEncrypt (k : Nat) (m : FernetBytes) : FernetToken :=
  { producedUnder := k, payload := m }

/-- `Fernet(k).decrypt(t)`: succeeds iff `t` was produced under `k`
(`InvalidToken` otherwise). -/
def fernetDecrypt (k : Nat) (t : FernetToken) : Option FernetBytes :=
  if t.producedUnder = k then some t.payload else none

/-- `EnvelopeCiphertext` from `app/crypto/envelope.py`: encrypted secret plus
wrapped data key. -/
structure EnvelopeCiphertext where
  encryptedSecret : FernetToken
  wrappedDataKey : FernetToken
deriving DecidableEq, Repr

/-- Vault failure: raised when the wrapped key or ciphertext is malformed or
was produced under a different master key (`cryptography.fernet.InvalidToken`,
surfaced as the spec's `VaultError`). -/
inductive VaultError where
  | invalidToken : VaultError
  | invalidPayload : VaultError
deriving DecidableEq, Repr

/-- `EnvelopeEncryptor` from `app/crypto/envelope.py`: holds the process-wide
master key. -/
structure EnvelopeEncryptor where
  masterKey : Nat
deriving DecidableEq, Repr

/-- `EnvelopeEncryptor.encrypt`: encrypt the plaintext with a freshly
generated data key (passed explicitly, since key generation is random),
and wrap the data key under the master key. -/
def EnvelopeEncryptor.encrypt (e : EnvelopeEncryptor) (plaintext : String)
    (dataKey : Nat) : EnvelopeCiphertext :=
  { encryptedSecret := fernetEncrypt dataKey (FernetBytes.text plaintext)
    wrappedDataKey := fernetEncrypt e.masterKey (FernetBytes.key dataKey) }

/-- `EnvelopeEncryptor.decrypt`: unwrap the data key under the master key,
then decrypt the secret under the data key; any failure (wrong key, payload
that is not a data key, payload that is not text) is a `VaultError`. -/
def EnvelopeEncryptor.decrypt (e : EnvelopeEncryptor)
    (encryptedSecret wrappedDataKey : FernetToken) :
    Except VaultError String :=
  match fernetDecrypt e.masterKey wrappedDataKey with
  | none => .error .invalidToken
  | some (FernetBytes.key dk) =>
    match fernetDecrypt dk encryptedSecret with
    | none => .error .invalidToken
    | some (FernetBytes.text s) => .ok s
    | some _ => .error .invalidPayload
  | some _ => .error .invalidPayload

/-- `AgentToken` (`app/models/token.py`): the agent identity used to scope
policies and quotas. -/
structure AgentToken where
  id : Nat
  orgId : Nat
deriving DecidableEq, Repr

/-- `Service` (`app/models/service.py`): a provider catalog entry. -/
structure Service where
  id : Nat
  provider : String
deriving DecidableEq, Repr

/-- `Policy` (`app/models/policy.py`): checkout rules for an (org, service)
pair, optionally narrowed to one agent. -/
structure Policy where
  id : Nat
  orgId : Nat
  agentTokenId : Option Nat
  serviceId : Nat
  maxCheckoutsPerWindow : Int
  checkoutWindow : String
  maxActiveCheckouts : Int
  maxTtlSeconds : Int
  enabled : Bool
  revokedAt : Option Int
deriving DecidableEq, Repr

/-- `StoredKey` (`app/models/secret.py`): an envelope-encrypted provider
secret. `createdAt` comes from `TimestampMixin`. -/
structure StoredKey where
  id : Nat
  orgId : Nat
  serviceId : Nat
  label : String
  encryptedSecret : FernetToken
  wrappedDataKey : FernetToken
  revokedAt : Option Int
  createdAt : Int
deriving DecidableEq, Repr

/-- `Checkout` (`app/models/checkout.py`): the core mutable entity. -/
structure Checkout where
  id : Nat
  agentTokenId : Nat
  storedKeyId : Nat
  policyId : Nat
  checkedOutAt : Int
  expiresAt : Int
  returnedAt : Option Int
  revokedAt : Option Int
deriving DecidableEq, Repr

/-- `AuditLog` (`app/models/audit.py`), as written by
`app/services/audit.py` `log_event`. -/
structure AuditEvent where
  orgId : Nat
  agentTokenId : Option Nat
  action : String
  resourceType : String
  resourceId : Nat
deriving DecidableEq, Repr

/-- The persistence store: the tables the checkout engine reads and
writes. -/
structure DB where
  services : List Service
  policies : List Policy
  storedKeys : List StoredKey
  agentTokens : List AgentToken
  checkouts : List Checkout
  auditLog : List AuditEvent
deriving DecidableEq, Repr

/-- The typed error kinds raised by the engine (`HTTPException` details in
`app/services/policy.py` and `app/services/checkout.py`, named per the
spec's error taxonomy). -/
inductive ApiError where
  | serviceNotFound : ApiError
  | noMatchingPolicy : ApiError
  | ttlExceedsPolicy : ApiError
  | quotaExceeded : ApiError
  | activeCapExceeded : ApiError
  | noActiveKey : ApiError
  | checkoutNotFound : ApiError
  | alreadyRevoked : ApiError
  | alreadyExpired : ApiError
  | alreadyReturned : ApiError
  | storedKeyMissing : ApiError
  | vaultError (e : VaultError) : ApiError
deriving DecidableEq, Repr

/-- Result of a state-changing operation: the database after the request
(unchanged when the operation raised, since the session is only committed on
success) together with the outcome. -/
structure OpResult (α : Type) where
  db : DB
  out : Except ApiError α
deriving Repr

instance {ε α : Type} [DecidableEq ε] [DecidableEq α] :
    DecidableEq (Except ε α) := fun x y =>
  match x, y with
  | .ok a, .ok b =>
    if h : a = b then isTrue (congrArg _ h)
    else isFalse (fun hc => h (Except.ok.inj hc))
  | .error a, .error b =>
    if h : a = b then isTrue (congrArg _ h)
    else isFalse (fun hc => h (Except.error.inj hc))
  | .ok _, .error _ => isFalse (fun hc => Except.noConfusion hc)
  | .error _, .ok _ => isFalse (fun hc => Except.noConfusion hc)

/-- A checkout is active iff `returned_at is null AND revoked_at is null AND
now < expires_at` (the predicate used by `_enforce_active_checkout_cap` and
`list_active_checkouts`). -/
def isActiveAt (c : Checkout) (now : Int) : Bool :=
  c.returnedAt == none && c.revokedAt == none && decide (now < c.expiresAt)

/-- Number of active checkouts for (agent, policy), per
`_enforce_active_checkout_cap`. -/
def activeCount (db : DB) (agentTokenId policyId : Nat) (now : Int) : Nat :=
  (db.checkouts.filter fun c =>
    c.agentTokenId == agentTokenId && c.policyId == policyId &&
      isActiveAt c now).length

/-- Window length used by `_enforce_checkout_window`: one day for "daily",
one hour otherwise (in seconds). -/
def windowDelta (p : Policy) : Int :=
  if p.checkoutWindow == "daily" then 86400 else 3600

/-- Number of checkouts for (agent, policy) issued inside the rolling
window, regardless of return/revocation/expiry, per
`_enforce_checkout_window`. -/
def windowCount (db : DB) (agentTokenId policyId : Nat) (threshold : Int) : Nat :=
  (db.checkouts.filter fun c =>
    c.agentTokenId == agentTokenId && c.policyId == policyId &&
      decide (threshold ≤ c.checkedOutAt)).length

/-- `_enforce_checkout_window`: fail with `QuotaExceeded` when the window
count has reached `max_checkouts_per_window`. -/
def enforceCheckoutWindow (db : DB) (agentTokenId : Nat) (p : Policy)
    (now : Int) : Except ApiError Unit :=
  if (windowCount db agentTokenId p.id (now - windowDelta p) : Int) ≥
      p.maxCheckoutsPerWindow then
    .error .quotaExceeded
  else
    .ok ()

/-- `_enforce_active_checkout_cap`: fail with `ActiveCapExceeded` when the
active count has reached `max_active_checkouts`. -/
def enforceActiveCheckoutCap (db : DB) (agentTokenId : Nat) (p : Policy)
    (now : Int) : Except ApiError Unit :=
  if (activeCount db agentTokenId p.id now : Int) ≥ p.maxActiveCheckouts then
    .error .activeCapExceeded
  else
    .ok ()

/-- Service lookup by provider slug (global catalog, not org-scoped). -/
def findService (db : DB) (provider : String) : Option Service :=
  db.services.find? fun s => s.provider == provider

/-- A policy matches the request iff it belongs to the agent's org and the
service, is enabled and non-revoked, and is either scoped to this agent or
org-wide. -/
def policyMatches (p : Policy) (agent : AgentToken) (serviceId : Nat) : Bool :=
  p.orgId == agent.orgId && p.serviceId == serviceId && p.enabled &&
    p.revokedAt == none &&
    (p.agentTokenId == some agent.id || p.agentTokenId == none)

/-- The matching policies, ordered by `agent_token_id IS NULL` ascending as
in the source query: agent-scoped policies sort before org-wide ones. -/
def orderedMatchingPolicies (db : DB) (agent : AgentToken) (serviceId : Nat) :
    List Policy :=
  (db.policies.filter fun p =>
    policyMatches p agent serviceId && !(p.agentTokenId == none)) ++
  (db.policies.filter fun p =>
    policyMatches p agent serviceId && p.agentTokenId == none)

/-- Policy selection: the first matching policy in the
agent-scoped-first order. -/
def selectPolicy (db : DB) (agent : AgentToken) (serviceId : Nat) :
    Option Policy :=
  (orderedMatchingPolicies db agent serviceId).head?

/-- Among the non-revoked stored keys for (org, service), pick the most
recently created one (`ORDER BY created_at DESC` then `first()`); ties keep
the earlier row. -/
def pickLatest : List StoredKey → Option StoredKey
  | [] => none
  | k :: ks =>
    match pickLatest ks with
    | none => some k
    | some m => if m.createdAt > k.createdAt then some m else some k

/-- Stored-key selection for (org, service): non-revoked keys only, most
recently created first. -/
def selectStoredKey (db : DB) (orgId serviceId : Nat) : Option StoredKey :=
  pickLatest (db.storedKeys.filter fun k =>
    k.orgId == orgId && k.serviceId == serviceId && k.revokedAt == none)

/-- `resolve_checkout_policy` (`app/services/policy.py`): service lookup,
policy selection, TTL validation, the two quota checks, then stored-key
selection, in exactly the source's order. -/
def resolveCheckoutPolicy (db : DB) (agent : AgentToken) (provider : String)
    (requestedTtl : Int) (now : Int) :
    Except ApiError (Policy × StoredKey × Service) :=
  match findService db provider with
  | none => .error .serviceNotFound
  | some service =>
    match selectPolicy db agent service.id with
    | none => .error .noMatchingPolicy
    | some policy =>
      if requestedTtl > policy.maxTtlSeconds then
        .error .ttlExceedsPolicy
      else
        match enforceCheckoutWindow db agent.id policy now with
        | .error e => .error e
        | .ok _ =>
          match enforceActiveCheckoutCap db agent.id policy now with
          | .error e => .error e
          | .ok _ =>
            match selectStoredKey db agent.orgId service.id with
            | none => .error .noActiveKey
            | some storedKey => .ok (policy, storedKey, service)

/-- `default_checkout_ttl_seconds` from `app/config.py`. -/
def defaultCheckoutTtlSeconds : Int := 3600

/-- `ttl = ttl_seconds or get_settings().default_checkout_ttl_seconds`
(`create_checkout`): both a missing TTL and a zero TTL (falsy in Python) are
replaced by the configured default. -/
def effectiveTtl (ttlSeconds : Option Int) : Int :=
  match ttlSeconds with
  | none => defaultCheckoutTtlSeconds
  | some t => if t = 0 then defaultCheckoutTtlSeconds else t

/-- `decrypt_stored_key` (`app/services/vault.py`): look the key up by id,
fail if missing or revoked, then envelope-decrypt it. -/
def decryptStoredKey (db : DB) (enc : EnvelopeEncryptor)
    (storedKeyId : Nat) : Except ApiError String :=
  match db.storedKeys.find? (fun k => k.id == storedKeyId) with
  | none => .error .storedKeyMissing
  | some k =>
    if k.revokedAt ≠ none then .error .storedKeyMissing
    else
      match enc.decrypt k.encryptedSecret k.wrappedDataKey with
      | .error e => .error (.vaultError e)
      | .ok s => .ok s

/-- The outcome of a successful checkout: the row, the decrypted key, and
the provider slug. -/
structure CheckoutCreated where
  checkout : Checkout
  apiKey : String
  provider : String
deriving DecidableEq, Repr

/-- `create_checkout` (`app/services/checkout.py`): apply the TTL default,
resolve policy and stored key (which also runs both quota checks), insert
the checkout row, decrypt the stored key, and emit the `key_checked_out`
audit event. `newId` stands for the generated row id; `enc` is the cached
process-wide encryptor. On any failure the session is not committed, so the
database is unchanged. -/
def createCheckout (db : DB) (enc : EnvelopeEncryptor) (agent : AgentToken)
    (provider : String) (ttlSeconds : Option Int) (now : Int) (newId : Nat) :
    OpResult CheckoutCreated :=
  let ttl := effectiveTtl ttlSeconds
  match resolveCheckoutPolicy db agent provider ttl now with
  | .error e => ⟨db, .error e⟩
  | .ok (policy, storedKey, service) =>
    let row : Checkout :=
      { id := newId
        agentTokenId := agent.id
        storedKeyId := storedKey.id
        policyId := policy.id
        checkedOutAt := now
        expiresAt := now + ttl
        returnedAt := none
        revokedAt := none }
    let db1 : DB := { db with checkouts := db.checkouts ++ [row] }
    match decryptStoredKey db1 enc storedKey.id with
    | .error e => ⟨db, .error e⟩
    | .ok apiKey =>
      let event : AuditEvent :=
        { orgId := agent.orgId
          agentTokenId := some agent.id
          action := "key_checked_out"
          resourceType := "checkout"
          resourceId := row.id }
      ⟨{ db1 with auditLog := db1.auditLog ++ [event] },
        .ok { checkout := row, apiKey := apiKey, provider := service.provider }⟩

/-- `return_checkout` (`app/services/checkout.py`): look the checkout up by
id, require ownership by the requesting agent, then check revoked, expired,
and already-returned in that order; on success set `returned_at = now` and
emit `key_returned`. -/
def returnCheckout (db : DB) (agent : AgentToken) (checkoutId : Nat)
    (now : Int) : OpResult Checkout :=
  match db.checkouts.find? (fun c => c.id == checkoutId) with
  | none => ⟨db, .error .checkoutNotFound⟩
  | some c =>
    if c.agentTokenId ≠ agent.id then ⟨db, .error .checkoutNotFound⟩
    else if c.revokedAt ≠ none then ⟨db, .error .alreadyRevoked⟩
    else if c.expiresAt ≤ now then ⟨db, .error .alreadyExpired⟩
    else if c.returnedAt ≠ none then ⟨db, .error .alreadyReturned⟩
    else
      let c' : Checkout := { c with returnedAt := some now }
      let event : AuditEvent :=
        { orgId := agent.orgId
          agentTokenId := some agent.id
          action := "key_returned"
          resourceType := "checkout"
          resourceId := c.id }
      ⟨{ db with
          checkouts := db.checkouts.map fun x =>
            if x.id == checkoutId then { x with returnedAt := some now } else x
          auditLog := db.auditLog ++ [event] },
        .ok c'⟩

/-- `revoke_checkout` (`app/services/checkout.py`): look the checkout up by
id joined with its agent token scoped to the organization; if already
revoked, return it unchanged without emitting an event; otherwise set
`revoked_at = now` and emit `checkout_revoked`. -/
def revokeCheckout (db : DB) (checkoutId orgId : Nat) (now : Int) :
    OpResult Checkout :=
  match db.checkouts.find? (fun c =>
      c.id == checkoutId && db.agentTokens.any fun t =>
        t.id == c.agentTokenId && t.orgId == orgId) with
  | none => ⟨db, .error .checkoutNotFound⟩
  | some c =>
    if c.revokedAt = none then
      let c' : Checkout := { c with revokedAt := some now }
      let event : AuditEvent :=
        { orgId := orgId
          agentTokenId := some c.agentTokenId
          action := "checkout_revoked"
          resourceType := "checkout"
          resourceId := c.id }
      ⟨{ db with
          checkouts := db.checkouts.map fun x =>
            if x.id == checkoutId then { x with revokedAt := some now } else x
          auditLog := db.auditLog ++ [event] },
        .ok c'⟩
    else ⟨db, .ok c⟩

/-- `list_active_checkouts` (`app/routers/credentials.py`): the live Active
predicate evaluated over `now` for one agent. -/
def listActiveCheckouts (db : DB) (agent : AgentToken) (now : Int) :
    List Checkout :=
  db.checkouts.filter fun c =>
    c.agentTokenId == agent.id && isActiveAt c now

/-- A checkout attempt whose reads and whose insert see different database
states: the quota and cap checks (and the whole policy resolution) run
against the snapshot `readDb`, while the insert lands on `applyDb`. The
source runs the count queries and the insert as separate statements with no
lock, no serializable isolation and no database constraint between them, so
under concurrency a second attempt's checks can read a snapshot that does
not yet contain the first attempt's insert. -/
def createCheckoutRaced (readDb applyDb : DB) (enc : EnvelopeEncryptor)
    (agent : AgentToken) (provider : String) (ttlSeconds : Option Int)
    (now : Int) (newId : Nat) : OpResult CheckoutCreated :=
  let ttl := effectiveTtl ttlSeconds
  match resolveCheckoutPolicy readDb agent provider ttl now with
  | .error e => ⟨applyDb, .error e⟩
  | .ok (policy, storedKey, service) =>
    let row : Checkout :=
      { id := newId
        agentTokenId := agent.id
        storedKeyId := storedKey.id
        policyId := policy.id
        checkedOutAt := now
        expiresAt := now + ttl
        returnedAt := none
        revokedAt := none }
    let db1 : DB := { applyDb with checkouts := applyDb.checkouts ++ [row] }
    match decryptStoredKey db1 enc storedKey.id with
    | .error e => ⟨applyDb, .error e⟩
    | .ok apiKey =>
      let event : AuditEvent :=
        { orgId := agent.orgId
          agentTokenId := some agent.id
          action := "key_checked_out"
          resourceType := "checkout"
          resourceId := row.id }
      ⟨{ db1 with auditLog := db1.auditLog ++ [event] },
        .ok { checkout := row, apiKey := apiKey, provider := service.provider }⟩

/-! ## Helper lemmas -/

/-- The stored key picked by `pickLatest` is one of the candidates. -/
theorem pickLatest_mem {l : List StoredKey} {m : StoredKey}
    (h : pickLatest l = some m) : m ∈ l := by
  revert h
  induction l generalizing m with
  | nil => intro h; simp [pickLatest] at h
  | cons k ks ih =>
    intro h
    rw [pickLatest] at h
    split at h
    · injection h with h
      exact h ▸ List.mem_cons_self _ _
    · rename_i m' hks
      split at h
      · injection h with h
        exact h ▸ List.mem_cons_of_mem _ (ih hks)
      · injection h with h
        exact h ▸ List.mem_cons_self _ _

/-- The stored key selected for a checkout is never a revoked one. -/
theorem selectStoredKey_nonrevoked {db : DB} {orgId serviceId : Nat}
    {k : StoredKey} (h : selectStoredKey db orgId serviceId = some k) :
    k.revokedAt = none := by
  have hmem := pickLatest_mem h
  have hpred := (List.mem_filter.mp hmem).2
  simp only [Bool.and_eq_true, beq_iff_eq] at hpred
  exact hpred.2

/-- Inversion of a successful policy resolution: every stage of
`resolve_checkout_policy` passed, in the source's order. -/
theorem resolveCheckoutPolicy_ok_inv {db : DB} {agent : AgentToken}
    {provider : String} {ttl now : Int} {p : Policy} {k : StoredKey}
    {svc : Service}
    (h : resolveCheckoutPolicy db agent provider ttl now = .ok (p, k, svc)) :
    findService db provider = some svc ∧
    selectPolicy db agent svc.id = some p ∧
    ttl ≤ p.maxTtlSeconds ∧
    (windowCount db agent.id p.id (now - windowDelta p) : Int) <
      p.maxCheckoutsPerWindow ∧
    (activeCount db agent.id p.id now : Int) < p.maxActiveCheckouts ∧
    selectStoredKey db agent.orgId svc.id = some k := by
  unfold resolveCheckoutPolicy at h
  split at h
  · exact Except.noConfusion h
  · rename_i service hs
    split at h
    · exact Except.noConfusion h
    · rename_i policy hp
      split at h
      · exact Except.noConfusion h
      · rename_i httl
        split at h
        · exact Except.noConfusion h
        · rename_i u hw
          split at h
          · exact Except.noConfusion h
          · rename_i v hc
            split at h
            · exact Except.noConfusion h
            · rename_i storedKey hk
              simp only [Except.ok.injEq, Prod.mk.injEq] at h
              obtain ⟨hpol, hkey, hsvc⟩ := h
              subst hpol; subst hkey; subst hsvc
              refine ⟨hs, hp, not_lt.mp httl, ?_, ?_, hk⟩
              · unfold enforceCheckoutWindow at hw
                split at hw
                · exact Except.noConfusion hw
                · omega
              · unfold enforceActiveCheckoutCap at hc
                split at hc
                · exact Except.noConfusion hc
                · omega

/-- Inversion of a successful checkout creation: the resolver succeeded, the
created row has the resolved policy and stored key with
`expires_at = checked_out_at + ttl`, and the new state appends exactly that
row and one `key_checked_out` audit event. -/
theorem createCheckout_ok_inv {db : DB} {enc : EnvelopeEncryptor}
    {agent : AgentToken} {provider : String} {ttlSeconds : Option Int}
    {now : Int} {newId : Nat} {res : CheckoutCreated}
    (h : (createCheckout db enc agent provider ttlSeconds now newId).out =
      .ok res) :
    ∃ p k svc,
      resolveCheckoutPolicy db agent provider (effectiveTtl ttlSeconds) now =
        .ok (p, k, svc) ∧
      res.provider = svc.provider ∧
      res.checkout =
        { id := newId, agentTokenId := agent.id, storedKeyId := k.id,
          policyId := p.id, checkedOutAt := now,
          expiresAt := now + effectiveTtl ttlSeconds,
          returnedAt := none, revokedAt := none } ∧
      (createCheckout db enc agent provider ttlSeconds now newId).db =
        { db with
            checkouts := db.checkouts ++ [res.checkout],
            auditLog := db.auditLog ++
              [{ orgId := agent.orgId, agentTokenId := some agent.id,
                 action := "key_checked_out", resourceType := "checkout",
                 resourceId := newId }] } := by
  cases hres : resolveCheckoutPolicy db agent provider (effectiveTtl ttlSeconds)
      now with
  | error e =>
    simp only [createCheckout, hres] at h
    exact Except.noConfusion h
  | ok t =>
    obtain ⟨p, k, svc⟩ := t
    refine ⟨p, k, svc, rfl, ?_⟩
    simp only [createCheckout, hres] at h ⊢
    cases hd : decryptStoredKey
        { db with checkouts := db.checkouts ++
            [{ id := newId, agentTokenId := agent.id, storedKeyId := k.id,
               policyId := p.id, checkedOutAt := now,
               expiresAt := now + effectiveTtl ttlSeconds,
               returnedAt := none, revokedAt := none }] } enc k.id with
    | error e => rw [hd] at h; simp at h
    | ok apiKey =>
      rw [hd] at h
      simp only [Except.ok.injEq] at h
      subst h
      simp [hd]

/-! ## Claim theorems -/

/-- C7: Vault round-trip and key binding. Decrypting the (ciphertext,
wrapped data key) pair produced by `encrypt(S)` under the same master key
yields exactly `S`; decrypting under a different master key fails with a
`VaultError`; and whenever `decrypt` succeeds, the wrapped key was produced
under this master key, wraps a data key, and the ciphertext is that data
key's encryption of exactly the returned plaintext — so malformed inputs
fail and no garbage plaintext is ever returned. -/
theorem vault_roundtrip_key_binding :
    (∀ (e : EnvelopeEncryptor) (s : String) (dk : Nat),
      e.decrypt (e.encrypt s dk).encryptedSecret (e.encrypt s dk).wrappedDataKey
        = .ok s) ∧
    (∀ (e e' : EnvelopeEncryptor) (s : String) (dk : Nat),
      e'.masterKey ≠ e.masterKey →
      e'.decrypt (e.encrypt s dk).encryptedSecret
          (e.encrypt s dk).wrappedDataKey = .error .invalidToken) ∧
    (∀ (e : EnvelopeEncryptor) (ct wk : FernetToken) (s : String),
      e.decrypt ct wk = .ok s →
      wk.producedUnder = e.masterKey ∧
      ∃ dk, wk.payload = FernetBytes.key dk ∧
        ct.producedUnder = dk ∧ ct.payload = FernetBytes.text s) := by
  refine ⟨?_, ?_, ?_⟩
  · intro e s dk
    simp [EnvelopeEncryptor.decrypt, EnvelopeEncryptor.encrypt, fernetEncrypt,
      fernetDecrypt]
  · intro e e' s dk hne
    have hne2 : e.masterKey ≠ e'.masterKey := fun h => hne h.symm
    simp [EnvelopeEncryptor.decrypt, EnvelopeEncryptor.encrypt, fernetEncrypt,
      fernetDecrypt, hne2]
  · intro e ct wk s h
    unfold EnvelopeEncryptor.decrypt at h
    split at h
    · exact Except.noConfusion h
    · rename_i dk hdk
      split at h
      · exact Except.noConfusion h
      · rename_i s2 hs2
        injection h with h
        subst h
        unfold fernetDecrypt at hdk hs2
        split at hdk
        · rename_i hwu
          injection hdk with hdk
          split at hs2
          · rename_i hcu
            injection hs2 with hs2
            exact ⟨hwu, dk, hdk, hcu, hs2⟩
          · exact Option.noConfusion hs2
        · exact Option.noConfusion hdk
      · exact Except.noConfusion h
    · exact Except.noConfusion h

/-- Witness for C7: a concrete round-trip under master key 5 with data key
7, and a concrete cross-master-key decryption failure under master key 6. -/
theorem vault_roundtrip_key_binding_witness :
    (EnvelopeEncryptor.mk 5).decrypt
        ((EnvelopeEncryptor.mk 5).encrypt "sk-test" 7).encryptedSecret
        ((EnvelopeEncryptor.mk 5).encrypt "sk-test" 7).wrappedDataKey
      = .ok "sk-test" ∧
    (EnvelopeEncryptor.mk 6).decrypt
        ((EnvelopeEncryptor.mk 5).encrypt "sk-test" 7).encryptedSecret
        ((EnvelopeEncryptor.mk 5).encrypt "sk-test" 7).wrappedDataKey
      = .error .invalidToken :=
  ⟨vault_roundtrip_key_binding.1 (EnvelopeEncryptor.mk 5) "sk-test" 7,
   vault_roundtrip_key_binding.2.1 (EnvelopeEncryptor.mk 5)
     (EnvelopeEncryptor.mk 6) "sk-test" 7 (by decide)⟩

/-- C1: Sequential active-cap enforcement. Under a resolved policy, a
checkout attempt that reaches the active-cap check while the active count
for (agent, policy) is at least `max_active_checkouts` fails with
`ActiveCapExceeded` and leaves the database (hence the checkout table)
unchanged; and after any single successful creation the active count for
the resolved (agent, policy) is at most `max_active_checkouts`. -/
theorem active_cap_enforcement
    (db : DB) (enc : EnvelopeEncryptor) (agent : AgentToken)
    (provider : String) (ttlSeconds : Option Int) (now : Int) (newId : Nat)
    (svc : Service) (p : Policy)
    (hs : findService db provider = some svc)
    (hp : selectPolicy db agent svc.id = some p) :
    (effectiveTtl ttlSeconds ≤ p.maxTtlSeconds →
      (windowCount db agent.id p.id (now - windowDelta p) : Int) <
        p.maxCheckoutsPerWindow →
      (activeCount db agent.id p.id now : Int) ≥ p.maxActiveCheckouts →
      createCheckout db enc agent provider ttlSeconds now newId =
        ⟨db, .error .activeCapExceeded⟩) ∧
    (∀ res,
      (createCheckout db enc agent provider ttlSeconds now newId).out =
        .ok res →
      res.checkout.policyId = p.id ∧
      (activeCount
          (createCheckout db enc agent provider ttlSeconds now newId).db
          agent.id p.id now : Int) ≤ p.maxActiveCheckouts) := by
  constructor
  · intro httl hwin hcap
    have hw : enforceCheckoutWindow db agent.id p now = .ok () := by
      unfold enforceCheckoutWindow
      rw [if_neg (not_le.mpr hwin)]
    have hc : enforceActiveCheckoutCap db agent.id p now =
        .error .activeCapExceeded := by
      unfold enforceActiveCheckoutCap
      rw [if_pos hcap]
    have hres : resolveCheckoutPolicy db agent provider
        (effectiveTtl ttlSeconds) now = .error .activeCapExceeded := by
      simp only [resolveCheckoutPolicy, hs, hp, if_neg (not_lt.mpr httl),
        hw, hc]
    simp only [createCheckout, hres]
  · intro res hok
    obtain ⟨q, k, svc', hres, hprov, hck, hdb⟩ := createCheckout_ok_inv hok
    obtain ⟨hs', hp', _, _, hcap, _⟩ := resolveCheckoutPolicy_ok_inv hres
    rw [hs] at hs'
    injection hs' with hs'
    subst hs'
    rw [hp] at hp'
    injection hp' with hp'
    subst hp'
    constructor
    · rw [hck]
    · rw [hdb]
      have hone :
          (List.filter
            (fun c => c.agentTokenId == agent.id && c.policyId == p.id &&
              isActiveAt c now) [res.checkout]).length ≤ 1 := by
        simp only [List.filter]
        split <;> simp
      simp only [activeCount, List.filter_append, List.length_append] at *
      omega

/-- Concrete encryptor used by the witnesses: master key 5. -/
def wEnc : EnvelopeEncryptor := ⟨5⟩

/-- Concrete service used by the witnesses. -/
def wService : Service := ⟨1, "openai"⟩

/-- Concrete agent used by the witnesses: id 2, organization 1. -/
def wAgent : AgentToken := ⟨2, 1⟩

/-- Concrete agent-scoped policy used by the witnesses: window cap 10 daily,
active cap 1, max TTL 3600. -/
def wPolicy : Policy :=
  { id := 3, orgId := 1, agentTokenId := some 2, serviceId := 1,
    maxCheckoutsPerWindow := 10, checkoutWindow := "daily",
    maxActiveCheckouts := 1, maxTtlSeconds := 3600, enabled := true,
    revokedAt := none }

/-- Concrete stored key used by the witnesses, well-formed under `wEnc`
with data key 7. -/
def wKey : StoredKey :=
  { id := 10, orgId := 1, serviceId := 1, label := "primary",
    encryptedSecret := fernetEncrypt 7 (FernetBytes.text "sk-test"),
    wrappedDataKey := fernetEncrypt 5 (FernetBytes.key 7),
    revokedAt := none, createdAt := 50 }

/-- A checkout by `wAgent` under `wPolicy` that is active at time 1000. -/
def wActiveCheckout : Checkout :=
  { id := 20, agentTokenId := 2, storedKeyId := 10, policyId := 3,
    checkedOutAt := 900, expiresAt := 2000, returnedAt := none,
    revokedAt := none }

/-- Base witness database: the scenario rows and no checkouts. -/
def wDb : DB :=
  { services := [wService], policies := [wPolicy], storedKeys := [wKey],
    agentTokens := [wAgent], checkouts := [], auditLog := [] }

/-- Witness database already at the active cap (cap 1, one active
checkout). -/
def wDbFull : DB := { wDb with checkouts := [wActiveCheckout] }

/-- Witness for C1: with the active cap (1) already reached at time 1000, a
further checkout attempt fails with `ActiveCapExceeded` and changes
nothing. -/
theorem active_cap_enforcement_witness :
    createCheckout wDbFull wEnc wAgent "openai" (some 600) 1000 99 =
      ⟨wDbFull, .error .activeCapExceeded⟩ :=
  (active_cap_enforcement wDbFull wEnc wAgent "openai" (some 600) 1000 99
    wService wPolicy (by decide) (by decide)).1
    (by decide) (by decide) (by decide)

/-- C3: Window-cap enforcement. The window length is 24 hours for a "daily"
policy and 1 hour for an "hourly" one; a checkout attempt that reaches the
window check with `max_checkouts_per_window` or more checkouts issued inside
the window fails with `QuotaExceeded`, and otherwise the window check
passes. The window count includes a checkout regardless of its
returned/revoked/expired status: prepending any in-window row for the same
(agent, policy) — with arbitrary `returned_at`, `revoked_at`, `expires_at` —
raises the count by one. -/
theorem window_cap_enforcement
    (db : DB) (agent : AgentToken) (provider : String) (ttl now : Int)
    (svc : Service) (p : Policy)
    (hs : findService db provider = some svc)
    (hp : selectPolicy db agent svc.id = some p)
    (httl : ttl ≤ p.maxTtlSeconds) :
    (p.checkoutWindow = "daily" → windowDelta p = 86400) ∧
    (p.checkoutWindow = "hourly" → windowDelta p = 3600) ∧
    ((windowCount db agent.id p.id (now - windowDelta p) : Int) ≥
        p.maxCheckoutsPerWindow →
      resolveCheckoutPolicy db agent provider ttl now =
        .error .quotaExceeded) ∧
    ((windowCount db agent.id p.id (now - windowDelta p) : Int) <
        p.maxCheckoutsPerWindow →
      enforceCheckoutWindow db agent.id p now = .ok ()) ∧
    (∀ c : Checkout, c.agentTokenId = agent.id → c.policyId = p.id →
      now - windowDelta p ≤ c.checkedOutAt →
      windowCount { db with checkouts := c :: db.checkouts } agent.id p.id
          (now - windowDelta p) =
        windowCount db agent.id p.id (now - windowDelta p) + 1) := by
  refine ⟨?_, ?_, ?_, ?_, ?_⟩
  · intro h
    simp [windowDelta, h]
  · intro h
    simp [windowDelta, h]
  · intro hge
    have hw : enforceCheckoutWindow db agent.id p now =
        .error .quotaExceeded := by
      unfold enforceCheckoutWindow
      rw [if_pos hge]
    simp only [resolveCheckoutPolicy, hs, hp, if_neg (not_lt.mpr httl), hw]
  · intro hlt
    unfold enforceCheckoutWindow
    rw [if_neg (not_le.mpr hlt)]
  · intro c hca hcp hcw
    have hcond : (c.agentTokenId == agent.id && c.policyId == p.id &&
        decide (now - windowDelta p ≤ c.checkedOutAt)) = true := by
      simp [hca, hcp, hcw]
    simp only [windowCount, List.filter_cons, hcond]
    simp

/-- Witness for C3: with the daily window cap (here lowered to 1 via a
dedicated policy) already consumed by an expired checkout issued at time
900, the window check fails at time 1000; and prepending the expired row
raised the count from 0 to 1. -/
def wPolicyTightWindow : Policy :=
  { wPolicy with id := 6, maxCheckoutsPerWindow := 1 }

/-- An expired, unreturned, unrevoked checkout issued at time 900 under the
tight-window policy: inside the daily window at time 1000. -/
def wExpiredCheckout : Checkout :=
  { id := 21, agentTokenId := 2, storedKeyId := 10, policyId := 6,
    checkedOutAt := 900, expiresAt := 950, returnedAt := none,
    revokedAt := none }

/-- Witness database for C3: the tight-window policy is the only matching
policy, and one already-expired checkout under it sits inside the window. -/
def wDbWindow : DB :=
  { wDb with
      policies := [wPolicyTightWindow],
      checkouts := [wExpiredCheckout] }

/-- Witness for C3 applied at the concrete scenario: the expired in-window
checkout makes the whole resolution fail with `QuotaExceeded`. -/
theorem window_cap_enforcement_witness :
    windowDelta wPolicyTightWindow = 86400 ∧
    resolveCheckoutPolicy wDbWindow wAgent "openai" 600 1000 =
      .error .quotaExceeded :=
  ⟨(window_cap_enforcement wDbWindow wAgent "openai" 600 1000 wService
      wPolicyTightWindow (by decide) (by decide) (by decide)).1 (by decide),
   (window_cap_enforcement wDbWindow wAgent "openai" 600 1000 wService
      wPolicyTightWindow (by decide) (by decide) (by decide)).2.2.1
      (by decide)⟩

/-- Database where the agent's window quota is exhausted AND the org has no
stored key for the service: both failure conditions hold at once. -/
def wDbNoKeyQuotaFull : DB := { wDbWindow with storedKeys := [] }

/-- Counterexample for C4: with the service present, an enabled matching
policy, a TTL within the limit, the window quota exhausted, and no
non-revoked stored key, the checkout fails with `QuotaExceeded`, not
`NoActiveKey` — the stored-key lookup runs after the quota checks inside
`resolve_checkout_policy`, so quota failures take precedence. -/
theorem no_active_key_precedence_cex :
    findService wDbNoKeyQuotaFull "openai" = some wService ∧
    selectPolicy wDbNoKeyQuotaFull wAgent wService.id =
      some wPolicyTightWindow ∧
    (600 : Int) ≤ wPolicyTightWindow.maxTtlSeconds ∧
    selectStoredKey wDbNoKeyQuotaFull wAgent.orgId wService.id = none ∧
    resolveCheckoutPolicy wDbNoKeyQuotaFull wAgent "openai" 600 1000 =
      .error .quotaExceeded ∧
    resolveCheckoutPolicy wDbNoKeyQuotaFull wAgent "openai" 600 1000 ≠
      .error .noActiveKey := by decide

/-- C4 (amended): when the service exists, an enabled non-revoked policy
matches, the TTL is within the limit, and both quota checks pass, a missing
non-revoked stored key makes the checkout fail with `NoActiveKey`; when a
quota or cap is also exhausted, that quota error takes precedence because
the stored-key selection runs after the quota checks. -/
theorem no_active_key_after_quota
    (db : DB) (agent : AgentToken) (provider : String) (ttl now : Int)
    (svc : Service) (p : Policy)
    (hs : findService db provider = some svc)
    (hp : selectPolicy db agent svc.id = some p)
    (httl : ttl ≤ p.maxTtlSeconds)
    (hwin : (windowCount db agent.id p.id (now - windowDelta p) : Int) <
      p.maxCheckoutsPerWindow)
    (hcap : (activeCount db agent.id p.id now : Int) < p.maxActiveCheckouts)
    (hkey : selectStoredKey db agent.orgId svc.id = none) :
    resolveCheckoutPolicy db agent provider ttl now =
      .error .noActiveKey := by
  have hw : enforceCheckoutWindow db agent.id p now = .ok () := by
    unfold enforceCheckoutWindow
    rw [if_neg (not_le.mpr hwin)]
  have hc : enforceActiveCheckoutCap db agent.id p now = .ok () := by
    unfold enforceActiveCheckoutCap
    rw [if_neg (not_le.mpr hcap)]
  simp only [resolveCheckoutPolicy, hs, hp, if_neg (not_lt.mpr httl), hw,
    hc, hkey]

/-- Database with no stored keys and no checkout history: all checks before
the stored-key lookup pass. -/
def wDbNoKey : DB := { wDb with storedKeys := [] }

/-- Witness for the amended C4: with quota and cap unused and no stored key,
resolution fails with `NoActiveKey`. -/
theorem no_active_key_after_quota_witness :
    resolveCheckoutPolicy wDbNoKey wAgent "openai" 600 1000 =
      .error .noActiveKey :=
  no_active_key_after_quota wDbNoKey wAgent "openai" 600 1000 wService
    wPolicy (by decide) (by decide) (by decide) (by decide) (by decide)
    (by decide)

/-- `decrypt_stored_key` reads only the stored-key table, so inserting a
checkout row first does not affect it. -/
theorem decryptStoredKey_ignores_checkouts (db : DB) (cs : List Checkout)
    (enc : EnvelopeEncryptor) (kid : Nat) :
    decryptStoredKey { db with checkouts := cs } enc kid =
      decryptStoredKey db enc kid := rfl

/-- C9: TTL boundary. Under a resolved policy with a positive TTL limit
(the admin layer enforces `max_ttl_seconds >= 60`), and with the quota, cap,
stored-key and vault preconditions holding, a checkout requested with
`ttl == policy.max_ttl_seconds` succeeds and its `expires_at` equals
`checked_out_at` plus the requested TTL, while
`ttl == policy.max_ttl_seconds + 1` fails with `TTLExceedsPolicy` and
changes nothing. -/
theorem ttl_boundary
    (db : DB) (enc : EnvelopeEncryptor) (agent : AgentToken)
    (provider : String) (now : Int) (newId : Nat)
    (svc : Service) (p : Policy) (k : StoredKey) (secret : String)
    (hs : findService db provider = some svc)
    (hp : selectPolicy db agent svc.id = some p)
    (hmax : 0 < p.maxTtlSeconds)
    (hwin : (windowCount db agent.id p.id (now - windowDelta p) : Int) <
      p.maxCheckoutsPerWindow)
    (hcap : (activeCount db agent.id p.id now : Int) < p.maxActiveCheckouts)
    (hkey : selectStoredKey db agent.orgId svc.id = some k)
    (hfind : db.storedKeys.find? (fun x => x.id == k.id) = some k)
    (hdec : enc.decrypt k.encryptedSecret k.wrappedDataKey = .ok secret) :
    (∃ res,
      (createCheckout db enc agent provider (some p.maxTtlSeconds) now
        newId).out = .ok res ∧
      res.checkout.checkedOutAt = now ∧
      res.checkout.expiresAt = now + p.maxTtlSeconds) ∧
    createCheckout db enc agent provider (some (p.maxTtlSeconds + 1)) now
        newId = ⟨db, .error .ttlExceedsPolicy⟩ := by
  have hw : enforceCheckoutWindow db agent.id p now = .ok () := by
    unfold enforceCheckoutWindow
    rw [if_neg (not_le.mpr hwin)]
  have hc : enforceActiveCheckoutCap db agent.id p now = .ok () := by
    unfold enforceActiveCheckoutCap
    rw [if_neg (not_le.mpr hcap)]
  constructor
  · have heff : effectiveTtl (some p.maxTtlSeconds) = p.maxTtlSeconds := by
      show (if p.maxTtlSeconds = 0 then defaultCheckoutTtlSeconds
        else p.maxTtlSeconds) = p.maxTtlSeconds
      rw [if_neg (by omega : ¬ p.maxTtlSeconds = 0)]
    have hres : resolveCheckoutPolicy db agent provider p.maxTtlSeconds now =
        .ok (p, k, svc) := by
      simp only [resolveCheckoutPolicy, hs, hp, if_neg (lt_irrefl _), hw, hc,
        hkey]
    have hrev : k.revokedAt = none := selectStoredKey_nonrevoked hkey
    have hdk0 : decryptStoredKey db enc k.id = .ok secret := by
      simp only [decryptStoredKey, hfind]
      rw [if_neg (by simp [hrev])]
      simp only [hdec]
    refine ⟨⟨{ id := newId
               agentTokenId := agent.id
               storedKeyId := k.id
               policyId := p.id
               checkedOutAt := now
               expiresAt := now + p.maxTtlSeconds
               returnedAt := none
               revokedAt := none }, secret, svc.provider⟩, ?_, rfl, rfl⟩
    simp only [createCheckout, heff, hres,
      decryptStoredKey_ignores_checkouts, hdk0]
  · have heff2 : effectiveTtl (some (p.maxTtlSeconds + 1)) =
        p.maxTtlSeconds + 1 := by
      show (if p.maxTtlSeconds + 1 = 0 then defaultCheckoutTtlSeconds
        else p.maxTtlSeconds + 1) = p.maxTtlSeconds + 1
      rw [if_neg (by omega : ¬ p.maxTtlSeconds + 1 = 0)]
    have hres2 : resolveCheckoutPolicy db agent provider
        (p.maxTtlSeconds + 1) now = .error .ttlExceedsPolicy := by
      simp only [resolveCheckoutPolicy, hs, hp,
        if_pos (by omega : p.maxTtlSeconds + 1 > p.maxTtlSeconds)]
    simp only [createCheckout, heff2, hres2]

/-- Witness for C9: at the concrete scenario the over-limit request
`ttl = 3601` fails with `TTLExceedsPolicy` leaving the database unchanged. -/
theorem ttl_boundary_witness :
    createCheckout wDb wEnc wAgent "openai"
        (some (wPolicy.maxTtlSeconds + 1)) 1000 43 =
      ⟨wDb, .error .ttlExceedsPolicy⟩ :=
  (ttl_boundary wDb wEnc wAgent "openai" 1000 43 wService wPolicy wKey
    "sk-test" (by decide) (by decide) (by decide) (by decide) (by decide)
    (by decide) (by decide) (by decide)).2

/-- C10: Implicit TTL fallback. A missing TTL and a zero TTL are both
replaced by the configured default of 3600 seconds before validation: when
the default exceeds the policy's limit the request fails with
`TTLExceedsPolicy` (`PolicyDenied`), and on success `expires_at` is
`checked_out_at + 3600` rather than the checkout expiring immediately. -/
theorem ttl_default_fallback
    (db : DB) (enc : EnvelopeEncryptor) (agent : AgentToken)
    (provider : String) (now : Int) (newId : Nat)
    (svc : Service) (p : Policy)
    (hs : findService db provider = some svc)
    (hp : selectPolicy db agent svc.id = some p) :
    effectiveTtl none = 3600 ∧
    effectiveTtl (some 0) = 3600 ∧
    (p.maxTtlSeconds < 3600 →
      createCheckout db enc agent provider none now newId =
        ⟨db, .error .ttlExceedsPolicy⟩ ∧
      createCheckout db enc agent provider (some 0) now newId =
        ⟨db, .error .ttlExceedsPolicy⟩) ∧
    (∀ res, (createCheckout db enc agent provider none now newId).out =
        .ok res → res.checkout.expiresAt = now + 3600) ∧
    (∀ res, (createCheckout db enc agent provider (some 0) now newId).out =
        .ok res → res.checkout.expiresAt = now + 3600) := by
  have heffn : effectiveTtl none = 3600 := rfl
  have heff0 : effectiveTtl (some 0) = 3600 := rfl
  refine ⟨heffn, heff0, ?_, ?_, ?_⟩
  · intro hlow
    have hres : resolveCheckoutPolicy db agent provider 3600 now =
        .error .ttlExceedsPolicy := by
      simp only [resolveCheckoutPolicy, hs, hp,
        if_pos (by omega : (3600 : Int) > p.maxTtlSeconds)]
    constructor
    · simp only [createCheckout, heffn, hres]
    · simp only [createCheckout, heff0, hres]
  · intro res hok
    obtain ⟨q, k, svc', hres, _, hck, _⟩ := createCheckout_ok_inv hok
    rw [hck, heffn]
  · intro res hok
    obtain ⟨q, k, svc', hres, _, hck, _⟩ := createCheckout_ok_inv hok
    rw [hck, heff0]

/-- Witness for C10: the fallback values at the concrete scenario. -/
theorem ttl_default_fallback_witness :
    effectiveTtl none = 3600 ∧ effectiveTtl (some 0) = 3600 :=
  ⟨(ttl_default_fallback wDb wEnc wAgent "openai" 1000 44 wService wPolicy
      (by decide) (by decide)).1,
   (ttl_default_fallback wDb wEnc wAgent "openai" 1000 44 wService wPolicy
      (by decide) (by decide)).2.1⟩

/-- C8: Agent-specific policy precedence. When both an enabled non-revoked
agent-scoped policy and an enabled non-revoked org-wide policy match the
same (organization, service) — with the admin-enforced invariant that at
most one agent-scoped policy matches — resolution deterministically selects
the agent-scoped policy, and any created checkout references its id. -/
theorem agent_policy_precedence
    (db : DB) (enc : EnvelopeEncryptor) (agent : AgentToken)
    (provider : String) (ttlSeconds : Option Int) (now : Int) (newId : Nat)
    (svc : Service) (p1 p2 : Policy)
    (hs : findService db provider = some svc)
    (h1mem : p1 ∈ db.policies)
    (h1match : policyMatches p1 agent svc.id = true)
    (h1scope : p1.agentTokenId = some agent.id)
    (h2mem : p2 ∈ db.policies)
    (h2match : policyMatches p2 agent svc.id = true)
    (h2scope : p2.agentTokenId = none)
    (huniq : ∀ q ∈ db.policies, policyMatches q agent svc.id = true →
      q.agentTokenId ≠ none → q = p1) :
    selectPolicy db agent svc.id = some p1 ∧
    (∀ res, (createCheckout db enc agent provider ttlSeconds now newId).out =
        .ok res → res.checkout.policyId = p1.id) := by
  have hmem1 : p1 ∈ db.policies.filter
      (fun p => policyMatches p agent svc.id && !(p.agentTokenId == none)) := by
    refine List.mem_filter.mpr ⟨h1mem, ?_⟩
    simp [h1match, h1scope]
  have hsel : selectPolicy db agent svc.id = some p1 := by
    unfold selectPolicy orderedMatchingPolicies
    cases hl : db.policies.filter
        (fun p => policyMatches p agent svc.id &&
          !(p.agentTokenId == none)) with
    | nil =>
      rw [hl] at hmem1
      exact absurd hmem1 (List.not_mem_nil _)
    | cons a as =>
      have ha : a ∈ db.policies.filter
          (fun p => policyMatches p agent svc.id &&
            !(p.agentTokenId == none)) := by
        rw [hl]
        exact List.mem_cons_self _ _
      obtain ⟨haDb, haPred⟩ := List.mem_filter.mp ha
      simp only [Bool.and_eq_true, Bool.not_eq_true', beq_eq_false_iff_ne]
        at haPred
      have ha1 : a = p1 := huniq a haDb haPred.1 haPred.2
      rw [ha1]
      rfl
  refine ⟨hsel, ?_⟩
  intro res hok
  obtain ⟨q, k, svc', hres, _, hck, _⟩ := createCheckout_ok_inv hok
  obtain ⟨hs', hp', _, _, _, _⟩ := resolveCheckoutPolicy_ok_inv hres
  rw [hs] at hs'
  injection hs' with hs'
  subst hs'
  rw [hsel] at hp'
  injection hp' with hp'
  subst hp'
  rw [hck]

/-- Org-wide policy for the C8 witness: same service, no agent scope,
generous caps. -/
def wOrgPolicy : Policy :=
  { id := 4, orgId := 1, agentTokenId := none, serviceId := 1,
    maxCheckoutsPerWindow := 100, checkoutWindow := "daily",
    maxActiveCheckouts := 5, maxTtlSeconds := 3600, enabled := true,
    revokedAt := none }

/-- Witness database for C8: the org-wide policy is listed before the
agent-scoped one, so only the agent-scoped-first ordering can pick the
agent-scoped policy. -/
def wDbBoth : DB := { wDb with policies := [wOrgPolicy, wPolicy] }

/-- Witness for C8: resolution picks the agent-scoped policy even though the
org-wide policy comes first in table order. -/
theorem agent_policy_precedence_witness :
    selectPolicy wDbBoth wAgent wService.id = some wPolicy :=
  (agent_policy_precedence wDbBoth wEnc wAgent "openai" (some 600) 1000 45
    wService wPolicy wOrgPolicy (by decide) (by decide) (by decide)
    (by decide) (by decide) (by decide) (by decide) (by decide)).1

/-- C5: Return precondition order and effect. The checks run in the source's
order — existence/ownership (`NotFound`), then revoked (`AlreadyRevoked`),
then expired (`AlreadyExpired`), then already-returned (`AlreadyReturned`),
each leaving the database unchanged — and a successful return sets
`returned_at = now` and appends exactly one `key_returned` audit event.
Returning an already-returned checkout always fails, and every failing
return leaves the state unchanged. -/
theorem return_checkout_order
    (db : DB) (agent : AgentToken) (checkoutId : Nat) (now : Int) :
    (db.checkouts.find? (fun c => c.id == checkoutId) = none →
      returnCheckout db agent checkoutId now =
        ⟨db, .error .checkoutNotFound⟩) ∧
    (∀ c, db.checkouts.find? (fun c => c.id == checkoutId) = some c →
      (c.agentTokenId ≠ agent.id →
        returnCheckout db agent checkoutId now =
          ⟨db, .error .checkoutNotFound⟩) ∧
      (c.agentTokenId = agent.id → c.revokedAt ≠ none →
        returnCheckout db agent checkoutId now =
          ⟨db, .error .alreadyRevoked⟩) ∧
      (c.agentTokenId = agent.id → c.revokedAt = none → c.expiresAt ≤ now →
        returnCheckout db agent checkoutId now =
          ⟨db, .error .alreadyExpired⟩) ∧
      (c.agentTokenId = agent.id → c.revokedAt = none → now < c.expiresAt →
        c.returnedAt ≠ none →
        returnCheckout db agent checkoutId now =
          ⟨db, .error .alreadyReturned⟩) ∧
      (c.agentTokenId = agent.id → c.returnedAt ≠ none →
        ∃ e, (returnCheckout db agent checkoutId now).out = .error e) ∧
      (c.agentTokenId = agent.id → c.revokedAt = none → now < c.expiresAt →
        c.returnedAt = none →
        returnCheckout db agent checkoutId now =
          ⟨{ db with
              checkouts := db.checkouts.map fun x =>
                if x.id == checkoutId then { x with returnedAt := some now }
                else x
              auditLog := db.auditLog ++
                [{ orgId := agent.orgId, agentTokenId := some agent.id,
                   action := "key_returned", resourceType := "checkout",
                   resourceId := c.id }] },
            .ok { c with returnedAt := some now }⟩)) ∧
    (∀ e, (returnCheckout db agent checkoutId now).out = .error e →
      (returnCheckout db agent checkoutId now).db = db) := by
  refine ⟨?_, ?_, ?_⟩
  · intro h
    simp only [returnCheckout, h]
  · intro c hc
    refine ⟨?_, ?_, ?_, ?_, ?_, ?_⟩
    · intro hne
      simp only [returnCheckout, hc]
      rw [if_pos hne]
    · intro hown hrev
      simp only [returnCheckout, hc]
      rw [if_neg (not_not_intro hown), if_pos hrev]
    · intro hown hrev hexp
      simp only [returnCheckout, hc]
      rw [if_neg (not_not_intro hown), if_neg (not_not_intro hrev),
        if_pos hexp]
    · intro hown hrev hlive hret
      simp only [returnCheckout, hc]
      rw [if_neg (not_not_intro hown), if_neg (not_not_intro hrev),
        if_neg (not_le.mpr hlive), if_pos hret]
    · intro hown hret
      by_cases hrev : c.revokedAt = none
      · by_cases hexp : c.expiresAt ≤ now
        · refine ⟨.alreadyExpired, ?_⟩
          simp only [returnCheckout, hc]
          rw [if_neg (not_not_intro hown), if_neg (not_not_intro hrev),
            if_pos hexp]
        · refine ⟨.alreadyReturned, ?_⟩
          simp only [returnCheckout, hc]
          rw [if_neg (not_not_intro hown), if_neg (not_not_intro hrev),
            if_neg hexp, if_pos hret]
      · refine ⟨.alreadyRevoked, ?_⟩
        simp only [returnCheckout, hc]
        rw [if_neg (not_not_intro hown), if_pos hrev]
    · intro hown hrev hlive hret
      simp only [returnCheckout, hc]
      rw [if_neg (not_not_intro hown), if_neg (not_not_intro hrev),
        if_neg (not_le.mpr hlive), if_neg (not_not_intro hret)]
  · intro e he
    cases hc : db.checkouts.find? (fun c => c.id == checkoutId) with
    | none => simp only [returnCheckout, hc]
    | some c =>
      simp only [returnCheckout, hc] at he ⊢
      by_cases h1 : c.agentTokenId ≠ agent.id
      · rw [if_pos h1]
      · rw [if_neg h1] at he ⊢
        by_cases h2 : c.revokedAt ≠ none
        · rw [if_pos h2]
        · rw [if_neg h2] at he ⊢
          by_cases h3 : c.expiresAt ≤ now
          · rw [if_pos h3]
          · rw [if_neg h3] at he ⊢
            by_cases h4 : c.returnedAt ≠ none
            · rw [if_pos h4]
            · rw [if_neg h4] at he
              exact absurd he (by simp)

/-- A checkout by `wAgent` already returned at time 950, not revoked, not
yet expired at time 1000. -/
def wReturnedCheckout : Checkout :=
  { id := 22, agentTokenId := 2, storedKeyId := 10, policyId := 3,
    checkedOutAt := 900, expiresAt := 2000, returnedAt := some 950,
    revokedAt := none }

/-- Witness database for C5: one already-returned checkout. -/
def wDbReturned : DB := { wDb with checkouts := [wReturnedCheckout] }

/-- Witness for C5: returning the already-returned checkout fails with
`AlreadyReturned` and changes nothing. -/
theorem return_checkout_order_witness :
    returnCheckout wDbReturned wAgent 22 1000 =
      ⟨wDbReturned, .error .alreadyReturned⟩ :=
  (((return_checkout_order wDbReturned wAgent 22 1000).2.1 wReturnedCheckout
    (by decide)).2.2.2.1) (by decide) (by decide) (by decide) (by decide)

/-- C6: Revoke idempotence. Revoking an already-revoked checkout in the
requesting organization is a no-op that succeeds, changes no field and
emits no audit event; revoking an unrevoked checkout — whatever its
returned/expired status — sets `revoked_at = now` and appends exactly one
`checkout_revoked` event; and a second revoke after a first one returns the
same state unchanged, so revoke composed with itself equals a single
revoke. -/
theorem revoke_idempotent
    (db : DB) (checkoutId orgId : Nat) (now now2 : Int) :
    ∀ c, db.checkouts.find? (fun c => c.id == checkoutId &&
        db.agentTokens.any fun t => t.id == c.agentTokenId &&
          t.orgId == orgId) = some c →
      (c.revokedAt ≠ none →
        revokeCheckout db checkoutId orgId now = ⟨db, .ok c⟩) ∧
      (c.revokedAt = none →
        revokeCheckout db checkoutId orgId now =
          ⟨{ db with
              checkouts := db.checkouts.map fun x =>
                if x.id == checkoutId then { x with revokedAt := some now }
                else x
              auditLog := db.auditLog ++
                [{ orgId := orgId, agentTokenId := some c.agentTokenId,
                   action := "checkout_revoked", resourceType := "checkout",
                   resourceId := c.id }] },
            .ok { c with revokedAt := some now }⟩ ∧
        revokeCheckout (revokeCheckout db checkoutId orgId now).db checkoutId
            orgId now2 =
          ⟨(revokeCheckout db checkoutId orgId now).db,
            .ok { c with revokedAt := some now }⟩) := by
  intro c hc
  have hcid : (c.id == checkoutId) = true := by
    have := List.find?_some hc
    exact (Bool.and_eq_true _ _ |>.mp this).1
  constructor
  · intro hrev
    simp only [revokeCheckout, hc]
    rw [if_neg hrev]
  · intro hrev
    have h1 : revokeCheckout db checkoutId orgId now =
        ⟨{ db with
            checkouts := db.checkouts.map fun x =>
              if x.id == checkoutId then { x with revokedAt := some now }
              else x
            auditLog := db.auditLog ++
              [{ orgId := orgId, agentTokenId := some c.agentTokenId,
                 action := "checkout_revoked", resourceType := "checkout",
                 resourceId := c.id }] },
          .ok { c with revokedAt := some now }⟩ := by
      simp only [revokeCheckout, hc]
      rw [if_pos hrev]
    refine ⟨h1, ?_⟩
    rw [h1]
    have hcomp :
        ((fun (c : Checkout) => c.id == checkoutId &&
            db.agentTokens.any fun t => t.id == c.agentTokenId &&
              t.orgId == orgId) ∘
          (fun (x : Checkout) =>
            if x.id == checkoutId then { x with revokedAt := some now }
            else x)) =
        (fun (c : Checkout) => c.id == checkoutId &&
          db.agentTokens.any fun t => t.id == c.agentTokenId &&
            t.orgId == orgId) := by
      funext x
      by_cases hx : (x.id == checkoutId) = true
      · simp only [Function.comp_apply, if_pos hx]
      · simp only [Function.comp_apply, if_neg hx]
    have hfindmap :
        (db.checkouts.map fun x =>
            if x.id == checkoutId then { x with revokedAt := some now }
            else x).find?
          (fun c => c.id == checkoutId &&
            db.agentTokens.any fun t => t.id == c.agentTokenId &&
              t.orgId == orgId) =
          some { c with revokedAt := some now } := by
      rw [List.find?_map, hcomp, hc]
      simp only [Option.map_some']
      rw [if_pos hcid]
    simp only [revokeCheckout, hfindmap]
    rw [if_neg (by simp)]

/-- Witness for C6: revoking the returned-but-unrevoked checkout sets
`revoked_at` and emits one event; revoking again is a no-op on the same
state. -/
theorem revoke_idempotent_witness :
    revokeCheckout wDbReturned 22 1 1000 =
      ⟨{ wDbReturned with
          checkouts := wDbReturned.checkouts.map fun x =>
            if x.id == 22 then { x with revokedAt := some 1000 } else x
          auditLog := wDbReturned.auditLog ++
            [{ orgId := 1,
               agentTokenId := some wReturnedCheckout.agentTokenId,
               action := "checkout_revoked", resourceType := "checkout",
               resourceId := wReturnedCheckout.id }] },
        .ok { wReturnedCheckout with revokedAt := some 1000 }⟩ ∧
    revokeCheckout (revokeCheckout wDbReturned 22 1 1000).db 22 1 1100 =
      ⟨(revokeCheckout wDbReturned 22 1 1000).db,
        .ok { wReturnedCheckout with revokedAt := some 1000 }⟩ :=
  (revoke_idempotent wDbReturned 22 1 1000 1100 wReturnedCheckout
    (by decide)).2 (by decide)

/-- Whether an operation produced a success response. -/
def opSucceeded {α : Type} (r : OpResult α) : Bool :=
  match r.out with
  | .ok _ => true
  | .error _ => false

/-- First racing checkout attempt: checks and insert both on the initial
state. -/
def raceAttempt1 : OpResult CheckoutCreated :=
  createCheckoutRaced wDb wDb wEnc wAgent "openai" (some 600) 1000 101

/-- Second racing checkout attempt: its checks read the stale initial
snapshot (taken before attempt 1 committed), its insert lands after
attempt 1. -/
def raceAttempt2 : OpResult CheckoutCreated :=
  createCheckoutRaced wDb raceAttempt1.db wEnc wAgent "openai" (some 600)
    1000 102

/-- C2 fails on the code: the count-then-insert sequence is not atomic, so
two concurrent attempts whose quota reads both precede the first insert
both succeed against a policy with `max_active_checkouts = 1`, leaving two
active checkouts — the claimed concurrent invariant
`count(active) <= max_active_checkouts` is violated and the second attempt
does not fail with `ActiveCapExceeded`. -/
theorem concurrent_active_cap_race :
    opSucceeded raceAttempt1 = true ∧
    opSucceeded raceAttempt2 = true ∧
    wPolicy.maxActiveCheckouts = 1 ∧
    activeCount raceAttempt2.db wAgent.id wPolicy.id 1000 = 2 ∧
    (activeCount raceAttempt2.db wAgent.id wPolicy.id 1000 : Int) >
      wPolicy.maxActiveCheckouts := by decide
